import Mathlib

/-!
Shallow embedding of the graphmemes crate
(src/graphmemes/src/lib.rs, grapheme.rs, error.rs, iter.rs):
a zero-allocation segmenter of Unicode scalar values into extended grapheme
clusters that also recognizes ANSI escape sequences.

Modelling conventions:
- Rust machine integers (usize, u8, u32) are modelled as Nat.  Every value
  involved is tiny (the packed state byte stays below 16, category flags
  below 64, offsets are sums of UTF-8 lengths), so no wrap-around can occur
  and no explicit reduction mod 2^w is needed.
- The fixed array [char; 8] is modelled as a List Char of length 8; writes
  are List.set, reads List.getD.  Every read and write the code performs is
  in bounds (the capacity check guards appends), so getD and the
  out-of-range no-op of List.set are never exercised on emitted values.
- The one fallible operation, slicing chars[..len] in Grapheme::as_chars,
  is modelled as an Option: none models the Rust panic when len exceeds
  the array length.
- Rust Result<T, GraphemeError> is Except GraphemeError T.
- The lazy Iterator is modelled by nextAux (structural recursion over the
  remaining characters, mirroring the while-let loop of Iterator::next)
  plus a fuel-indexed collector; fuel text.length + 1 bounds the number of
  items any run can produce (each item consumes a character or performs the
  single final flush).
-/

namespace Graphmemes

/-- Models char::len_utf8 from Rust: the UTF-8 encoded byte length of a
scalar value. -/
def utf8Len (c : Char) : Nat :=
  if c.toNat < 0x80 then 1
  else if c.toNat < 0x800 then 2
  else if c.toNat < 0x10000 then 3
  else 4

/-- Models char::is_ascii. -/
def is_ascii (c : Char) : Bool := c.toNat ≤ 0x7F

/-- Models char::is_ascii_alphabetic. -/
def is_ascii_alphabetic (c : Char) : Bool :=
  (0x41 ≤ c.toNat && c.toNat ≤ 0x5A) || (0x61 ≤ c.toNat && c.toNat ≤ 0x7A)

/-- MAX_GRAPHEME_SIZE from lib.rs: capacity of the cluster buffer. -/
def MAX_GRAPHEME_SIZE : Nat := 8

/-- boundary::EXTEND from grapheme.rs. -/
def boundary.EXTEND : Nat := 0x01
/-- boundary::ZWJ from grapheme.rs. -/
def boundary.ZWJ : Nat := 0x02
/-- boundary::SPACINGMARK from grapheme.rs. -/
def boundary.SPACINGMARK : Nat := 0x04
/-- boundary::PREPEND from grapheme.rs. -/
def boundary.PREPEND : Nat := 0x08
/-- boundary::REGIONAL from grapheme.rs. -/
def boundary.REGIONAL : Nat := 0x10
/-- boundary::EMOJI_MOD from grapheme.rs. -/
def boundary.EMOJI_MOD : Nat := 0x20

/-- The Grapheme struct from grapheme.rs: a fixed [char; 8] array (modelled
as a List Char of length 8) together with the number of valid characters. -/
structure Grapheme where
  chars : List Char
  len : Nat
deriving Repr, DecidableEq

/-- Grapheme::new: stores the array and the length with no validation. -/
def Grapheme.new (chars : List Char) (len : Nat) : Grapheme :=
  { chars := chars, len := len }

/-- Grapheme::as_chars: the slice &chars[..len].  Rust panics when len
exceeds the array length; the panic is modelled as none. -/
def Grapheme.as_chars (g : Grapheme) : Option (List Char) :=
  if g.len ≤ g.chars.length then some (g.chars.take g.len) else none

/-- Grapheme::is_empty. -/
def Grapheme.is_empty (g : Grapheme) : Bool := g.len == 0

/-- is_emoji from grapheme.rs. -/
def is_emoji (c : Char) : Bool :=
  (0x1F300 ≤ c.toNat && c.toNat ≤ 0x1F9FF) ||
  (0x2600 ≤ c.toNat && c.toNat ≤ 0x26FF) ||
  (0x2700 ≤ c.toNat && c.toNat ≤ 0x27BF)

/-- is_extend from grapheme.rs. -/
def is_extend (c : Char) : Bool :=
  (0x0300 ≤ c.toNat && c.toNat ≤ 0x036F) ||
  (0x1AB0 ≤ c.toNat && c.toNat ≤ 0x1AFF) ||
  (0x1DC0 ≤ c.toNat && c.toNat ≤ 0x1DFF) ||
  (0x20D0 ≤ c.toNat && c.toNat ≤ 0x20FF) ||
  (0xFE20 ≤ c.toNat && c.toNat ≤ 0xFE2F)

/-- is_spacing_mark from grapheme.rs. -/
def is_spacing_mark (c : Char) : Bool :=
  (c.toNat == 0x0903) ||
  (0x093E ≤ c.toNat && c.toNat ≤ 0x0940) ||
  (0x0949 ≤ c.toNat && c.toNat ≤ 0x094C) ||
  (0x094E ≤ c.toNat && c.toNat ≤ 0x094F) ||
  (0x0982 ≤ c.toNat && c.toNat ≤ 0x0983)

/-- is_prepend from grapheme.rs. -/
def is_prepend (c : Char) : Bool :=
  (0x0600 ≤ c.toNat && c.toNat ≤ 0x0605) ||
  (c.toNat == 0x06DD) ||
  (c.toNat == 0x070F) ||
  (0x0890 ≤ c.toNat && c.toNat ≤ 0x0891) ||
  (c.toNat == 0x08E2)

/-- Grapheme::char_category from grapheme.rs: first match wins. -/
def Grapheme.char_category (c : Char) : Nat :=
  if c.toNat = 0x200D then boundary.ZWJ
  else if c.toNat = 0xFE0F then boundary.EMOJI_MOD
  else if 0x1F3FB ≤ c.toNat ∧ c.toNat ≤ 0x1F3FF then boundary.EMOJI_MOD
  else if 0x1F1E6 ≤ c.toNat ∧ c.toNat ≤ 0x1F1FF then boundary.REGIONAL
  else if is_ascii c then 0
  else if is_extend c then boundary.EXTEND
  else if is_spacing_mark c then boundary.SPACINGMARK
  else if is_prepend c then boundary.PREPEND
  else 0

/-- GraphemeError from error.rs. -/
inductive GraphemeError where
  | InvalidAnsiSequence (offset : Nat) (sequence_len : Nat)
  | BufferOverflow (offset : Nat) (sequence_len : Nat)
deriving Repr, DecidableEq

/-- GraphemeError::invalid_ansi. -/
def GraphemeError.invalid_ansi (offset sequence_len : Nat) : GraphemeError :=
  .InvalidAnsiSequence offset sequence_len

/-- GraphemeError::buffer_overflow. -/
def GraphemeError.buffer_overflow (offset sequence_len : Nat) : GraphemeError :=
  .BufferOverflow offset sequence_len

/-- GraphemeError::offset. -/
def GraphemeError.offset : GraphemeError → Nat
  | .InvalidAnsiSequence o _ => o
  | .BufferOverflow o _ => o

/-- GraphemeError::sequence_length. -/
def GraphemeError.sequence_length : GraphemeError → Nat
  | .InvalidAnsiSequence _ l => l
  | .BufferOverflow _ l => l

/-- STATE_MASK from iter.rs (mask of the three low bits). -/
def STATE_MASK : Nat := 0b111
/-- STATE_START from iter.rs. -/
def STATE_START : Nat := 0
/-- STATE_IN_GRAPHEME from iter.rs. -/
def STATE_IN_GRAPHEME : Nat := 1
/-- STATE_IN_ANSI from iter.rs. -/
def STATE_IN_ANSI : Nat := 2

/-- The GraphemeIterator struct from iter.rs.  chars models the Chars
cursor (the characters not yet consumed); the packed state byte keeps the
machine state in its three low bits and the count_ansi flag in bit 3. -/
structure GraphemeIterator where
  chars : List Char
  position : Nat
  buffer : List Char
  buffer_len : Nat
  state : Nat
  prev_category : Nat
deriving Repr, DecidableEq

/-- GraphemeIterator::new. -/
def GraphemeIterator.new (text : List Char) (count_ansi : Bool) : GraphemeIterator :=
  { chars := text
    position := 0
    buffer := List.replicate MAX_GRAPHEME_SIZE '\x00'
    buffer_len := 0
    state := STATE_START + (if count_ansi then 1 else 0) * 8
    prev_category := 0 }

/-- GraphemeIterator::count_ansi: (state >> 3) & 1 == 1, written on Nat
as a division (bit 3 of a byte is state / 8 mod 2). -/
def GraphemeIterator.count_ansi (it : GraphemeIterator) : Bool :=
  it.state / 8 % 2 == 1

/-- The private method state() of GraphemeIterator: state & STATE_MASK,
written on Nat as state mod 8 (the mask keeps the three low bits). -/
def GraphemeIterator.curState (it : GraphemeIterator) : Nat :=
  it.state % 8

/-- GraphemeIterator::set_state: (state & !STATE_MASK) | new_state, written
on Nat as clearing the three low bits by division and adding the new state
(all states stored are below 8, so the bitwise or is an addition). -/
def GraphemeIterator.set_state (it : GraphemeIterator) (new_state : Nat) : GraphemeIterator :=
  { it with state := it.state / 8 * 8 + new_state }

/-- GraphemeIterator::is_boundary from iter.rs.  The Rust method mutates
prev_category and returns a Bool; here it returns the updated iterator
paired with the flag.  The match on (prev_category, category) is rendered
as the same first-match-wins cascade. -/
def GraphemeIterator.is_boundary (it : GraphemeIterator) (c : Char) :
    GraphemeIterator × Bool :=
  let category := Grapheme.char_category c
  if it.buffer_len ≤ 1 then
    ({ it with prev_category := category }, false)
  else
    let b : Bool :=
      if category = boundary.ZWJ then false
      else if it.prev_category = boundary.ZWJ ∧ is_emoji c = true then false
      else if category = boundary.EXTEND then false
      else if it.prev_category = boundary.REGIONAL ∧ category = boundary.REGIONAL then false
      else if category = boundary.EMOJI_MOD then false
      else if category = boundary.SPACINGMARK then false
      else if it.prev_category = boundary.PREPEND then false
      else true
    ({ it with prev_category := category }, b)

/-- GraphemeIterator::process_char from iter.rs.  The four arms of the Rust
match on (c, state()) appear in source order: the guarded ASCII fast path,
the escape start, the in-ANSI arm, and the general accumulation arm.  The
short-circuit of c.is_ascii() || self.is_boundary(c) is kept: is_boundary
(and its prev_category update) runs only for non-ASCII characters. -/
def GraphemeIterator.process_char (it : GraphemeIterator) (c : Char) :
    GraphemeIterator × Except GraphemeError (Option Grapheme) :=
  let current_pos := it.position
  let it1 := { it with position := it.position + utf8Len c }
  if it1.curState = STATE_START ∧ is_ascii c = true ∧ c ≠ '\x1b' then
    if MAX_GRAPHEME_SIZE ≤ it1.buffer_len then
      (it1, .error (GraphemeError.buffer_overflow current_pos (utf8Len c)))
    else
      let it2 := { it1 with buffer := it1.buffer.set it1.buffer_len c,
                            buffer_len := it1.buffer_len + 1 }
      if it2.buffer_len = 1 then
        (it2.set_state STATE_IN_GRAPHEME, .ok none)
      else
        let g := Grapheme.new it2.buffer (it2.buffer_len - 1)
        let it3 := { it2 with
          buffer := it2.buffer.set 0 (it2.buffer.getD (it2.buffer_len - 1) '\x00'),
          buffer_len := 1 }
        (it3.set_state STATE_IN_GRAPHEME, .ok (some g))
  else if c = '\x1b' then
    if 0 < it1.buffer_len then
      let g := Grapheme.new it1.buffer it1.buffer_len
      (({ it1 with buffer_len := 0 }).set_state STATE_IN_ANSI, .ok (some g))
    else
      (it1.set_state STATE_IN_ANSI, .ok none)
  else if it1.curState = STATE_IN_ANSI then
    if is_ascii_alphabetic c = true then
      let it2 := it1.set_state STATE_START
      if it2.count_ansi then
        let it3 := { it2 with buffer := it2.buffer.set 0 '\x1b' }
        (it3, .ok (some (Grapheme.new it3.buffer 1)))
      else
        (it2, .ok none)
    else if is_ascii c = false then
      (it1, .error (GraphemeError.invalid_ansi current_pos (utf8Len c)))
    else
      (it1, .ok none)
  else
    if MAX_GRAPHEME_SIZE ≤ it1.buffer_len then
      (it1, .error (GraphemeError.buffer_overflow current_pos (utf8Len c)))
    else
      let it2 := { it1 with buffer := it1.buffer.set it1.buffer_len c,
                            buffer_len := it1.buffer_len + 1 }
      if it2.buffer_len = 1 then
        (it2.set_state STATE_IN_GRAPHEME, .ok none)
      else
        let step := if is_ascii c = true then (it2, true) else it2.is_boundary c
        let it4 := step.1
        if step.2 = true then
          let g := Grapheme.new it4.buffer (it4.buffer_len - 1)
          let it5 := { it4 with
            buffer := it4.buffer.set 0 (it4.buffer.getD (it4.buffer_len - 1) '\x00'),
            buffer_len := 1 }
          (it5.set_state STATE_IN_GRAPHEME, .ok (some g))
        else
          (it4.set_state STATE_IN_GRAPHEME, .ok none)

/-- The while-let loop of Iterator::next, recursing structurally over the
characters still to be consumed (the first argument always equals the
chars field of the second).  When the source is exhausted a non-empty
buffer is flushed as one final grapheme. -/
def GraphemeIterator.nextAux :
    List Char → GraphemeIterator →
    GraphemeIterator × Option (Except GraphemeError Grapheme)
  | [], it =>
      if 0 < it.buffer_len then
        ({ it with buffer_len := 0 },
         some (.ok (Grapheme.new it.buffer it.buffer_len)))
      else
        (it, none)
  | c :: rest, it =>
      match ({ it with chars := rest }).process_char c with
      | (it2, .ok none) => GraphemeIterator.nextAux rest it2
      | (it2, .ok (some g)) => (it2, some (.ok g))
      | (it2, .error e) => (it2, some (.error e))

/-- Iterator::next for GraphemeIterator. -/
def GraphemeIterator.next (it : GraphemeIterator) :
    GraphemeIterator × Option (Except GraphemeError Grapheme) :=
  GraphemeIterator.nextAux it.chars it

/-- Collects the items the iterator produces, with fuel bounding the number
of items; fuel text.length + 1 is always enough, since each item either
consumes at least one character or is the single end-of-input flush. -/
def collectAux : Nat → GraphemeIterator → List (Except GraphemeError Grapheme)
  | 0, _ => []
  | fuel + 1, it =>
      match it.next with
      | (_, none) => []
      | (it2, some r) => r :: collectAux fuel it2

/-- The full item sequence of GraphemeIterator::new(text, count_ansi). -/
def graphemes (text : List Char) (count_ansi : Bool) :
    List (Except GraphemeError Grapheme) :=
  collectAux (text.length + 1) (GraphemeIterator.new text count_ansi)

/-- The observable content of an emitted item: errors kept, graphemes
replaced by their as_chars view. -/
def itemView (r : Except GraphemeError Grapheme) :
    Except GraphemeError (Option (List Char)) :=
  r.map Grapheme.as_chars

/-- The states an iterator can reach: the freshly constructed iterator,
closed under processing one character and under the end-of-input flush
performed by next. -/
inductive Reach : GraphemeIterator → Prop
  | init (text : List Char) (count_ansi : Bool) :
      Reach (GraphemeIterator.new text count_ansi)
  | consume (it : GraphemeIterator) (c : Char) (rest : List Char) :
      Reach it → Reach ({ it with chars := rest })
  | step (it : GraphemeIterator) (c : Char) :
      Reach it → Reach (it.process_char c).1
  | flush (it : GraphemeIterator) :
      Reach it → Reach ({ it with buffer_len := 0 })

/-- First regional indicator, U+1F1E6 REGIONAL INDICATOR SYMBOL LETTER A. -/
def riA : Char := Char.ofNat 0x1F1E6
/-- Second regional indicator, U+1F1E7 REGIONAL INDICATOR SYMBOL LETTER B. -/
def riB : Char := Char.ofNat 0x1F1E7
/-- The scalar value U+1234, a three-byte non-ASCII character. -/
def ch1234 : Char := Char.ofNat 0x1234
/-- COMBINING ACUTE ACCENT U+0301, an EXTEND-category character. -/
def acute : Char := Char.ofNat 0x0301

/-- The characters of "\x1b[31mred\x1b[0m". -/
def ansiText : List Char :=
  ['\x1b', '[', '3', '1', 'm', 'r', 'e', 'd', '\x1b', '[', '0', 'm']

/-- A concrete iterator state inside an ANSI escape sequence: the state
reached after consuming the ESC of the input "\x1b" ++ [ch1234] with
count_ansi = true (state byte 10 = IN_ANSI with bit 3 set). -/
def inAnsiState : GraphemeIterator :=
  { chars := [ch1234]
    position := 1
    buffer := List.replicate MAX_GRAPHEME_SIZE '\x00'
    buffer_len := 0
    state := 10
    prev_category := 0 }

/-- A concrete iterator state holding a full cluster of 8 characters:
the state reached after the base character of "a" followed by seven
combining acute accents, with one more accent still to come. -/
def fullBufferState : GraphemeIterator :=
  { chars := [acute]
    position := 15
    buffer := ['a', acute, acute, acute, acute, acute, acute, acute]
    buffer_len := 8
    state := 1
    prev_category := boundary.EXTEND }

/-- A concrete iterator state with an exhausted source and a buffered
two-character cluster, as after consuming all of "e" ++ [acute]. -/
def pendingFlushState : GraphemeIterator :=
  { chars := []
    position := 3
    buffer := ['e', acute, '\x00', '\x00', '\x00', '\x00', '\x00', '\x00']
    buffer_len := 2
    state := 1
    prev_category := boundary.EXTEND }

/-! Helper lemmas about the embedded operations. -/

theorem take_one_set_one (l : List Char) (c : Char) :
    (l.set 1 c).take 1 = l.take 1 := by
  cases l with
  | nil => rfl
  | cons x t => cases t with
    | nil => rfl
    | cons y t2 => rfl

theorem getD_one_set_one (l : List Char) (c : Char) (h : 2 ≤ l.length) :
    (l.set 1 c).getD 1 '\x00' = c := by
  cases l with
  | nil => simp at h
  | cons x t => cases t with
    | nil => simp at h
    | cons y t2 => rfl

theorem take_one_set_zero (l : List Char) (c : Char) (h : 1 ≤ l.length) :
    (l.set 0 c).take 1 = [c] := by
  cases l with
  | nil => simp at h
  | cons x t => rfl

@[simp] theorem set_state_buffer_len (it : Graphmemes.GraphemeIterator) (v : Nat) :
    (it.set_state v).buffer_len = it.buffer_len := rfl

@[simp] theorem set_state_chars (it : Graphmemes.GraphemeIterator) (v : Nat) :
    (it.set_state v).chars = it.chars := rfl

@[simp] theorem set_state_buffer (it : Graphmemes.GraphemeIterator) (v : Nat) :
    (it.set_state v).buffer = it.buffer := rfl

@[simp] theorem curState_set_state (it : Graphmemes.GraphemeIterator) (v : Nat)
    (h : v < 8) : (it.set_state v).curState = v := by
  simp only [GraphemeIterator.set_state, GraphemeIterator.curState]
  omega

@[simp] theorem is_boundary_buffer_len (it : Graphmemes.GraphemeIterator) (c : Char) :
    (it.is_boundary c).1.buffer_len = it.buffer_len := by
  unfold GraphemeIterator.is_boundary
  split <;> rfl

theorem as_chars_new (l : List Char) (k : Nat) (h : k ≤ l.length) :
    (Grapheme.new l k).as_chars = some (l.take k) := by
  simp only [Grapheme.new, Grapheme.as_chars]
  rw [if_pos h]

theorem curState_new (t : List Char) (ca : Bool) :
    (GraphemeIterator.new t ca).curState = STATE_START := by
  cases ca <;>
    simp [GraphemeIterator.new, GraphemeIterator.curState, STATE_START]

theorem is_ascii_alphabetic_ascii (c : Char) (h : is_ascii_alphabetic c = true) :
    is_ascii c = true := by
  simp only [is_ascii_alphabetic, Bool.or_eq_true, Bool.and_eq_true,
    decide_eq_true_eq] at h
  simp only [is_ascii, decide_eq_true_eq]
  omega

theorem esc_is_ascii : is_ascii '\x1b' = true := rfl

/-- Unfolding of process_char in the InAnsi state on a non-ASCII character:
the error branch, touching nothing but the cursor. -/
theorem process_char_inAnsi_nonascii (it : GraphemeIterator) (c : Char)
    (hs : it.curState = STATE_IN_ANSI) (hc : is_ascii c = false) :
    it.process_char c =
      ({ it with position := it.position + utf8Len c },
       .error (GraphemeError.invalid_ansi it.position (utf8Len c))) := by
  have hcur : it.state % 8 = 2 := by
    simpa [GraphemeIterator.curState, STATE_IN_ANSI] using hs
  have hcesc : ¬ (c = '\x1b') := by
    intro h; rw [h, esc_is_ascii] at hc; cases hc
  have halpha : is_ascii_alphabetic c = false := by
    cases h : is_ascii_alphabetic c
    · rfl
    · rw [is_ascii_alphabetic_ascii c h] at hc; cases hc
  simp only [GraphemeIterator.process_char, GraphemeIterator.curState,
    GraphemeIterator.set_state, STATE_START, STATE_IN_ANSI, STATE_IN_GRAPHEME,
    MAX_GRAPHEME_SIZE]
  simp only [hcur, hc, hcesc, halpha]
  norm_num

/-- Unfolding of process_char when the buffer already holds
MAX_GRAPHEME_SIZE characters and the character would be appended:
the overflow branch, touching nothing but the cursor. -/
theorem process_char_overflow (it : GraphemeIterator) (c : Char)
    (hb : it.buffer_len = MAX_GRAPHEME_SIZE)
    (hs : it.curState ≠ STATE_IN_ANSI) (hc : c ≠ '\x1b') :
    it.process_char c =
      ({ it with position := it.position + utf8Len c },
       .error (GraphemeError.buffer_overflow it.position (utf8Len c))) := by
  have hcur : ¬ (it.state % 8 = 2) := by
    simpa [GraphemeIterator.curState, STATE_IN_ANSI] using hs
  have hb8 : it.buffer_len = 8 := by simpa [MAX_GRAPHEME_SIZE] using hb
  simp only [GraphemeIterator.process_char, GraphemeIterator.curState,
    GraphemeIterator.set_state, STATE_START, STATE_IN_ANSI, STATE_IN_GRAPHEME,
    MAX_GRAPHEME_SIZE]
  simp only [hb8, hcur, hc]
  norm_num

/-- Unfolding of process_char on the ASCII fast path from the Start state
with an empty buffer: the character is buffered and nothing is emitted. -/
theorem process_char_start_ascii (it : GraphemeIterator) (c : Char)
    (hst : it.curState = STATE_START) (hca : is_ascii c = true)
    (hesc : c ≠ '\x1b') (hlen : it.buffer_len = 0) :
    it.process_char c =
      ({ it with position := it.position + utf8Len c,
                 buffer := it.buffer.set 0 c,
                 buffer_len := 1,
                 state := it.state / 8 * 8 + STATE_IN_GRAPHEME },
       .ok none) := by
  have hcur : it.state % 8 = 0 := by
    simpa [GraphemeIterator.curState, STATE_START] using hst
  simp only [GraphemeIterator.process_char, GraphemeIterator.curState,
    GraphemeIterator.set_state, STATE_START, STATE_IN_ANSI, STATE_IN_GRAPHEME,
    MAX_GRAPHEME_SIZE]
  simp only [hca, hlen, hcur, hesc]
  norm_num

/-- Unfolding of process_char on an ASCII non-ESC character while one
character is buffered in the InGrapheme state: the buffered character is
emitted and the new character becomes the sole buffered character. -/
theorem process_char_in_grapheme_ascii (it : GraphemeIterator) (c : Char)
    (hst : it.curState = STATE_IN_GRAPHEME) (hca : is_ascii c = true)
    (hesc : c ≠ '\x1b') (hlen : it.buffer_len = 1)
    (hbuf : it.buffer.length = MAX_GRAPHEME_SIZE) :
    it.process_char c =
      ({ it with position := it.position + utf8Len c,
                 buffer := (it.buffer.set 1 c).set 0 c,
                 buffer_len := 1,
                 state := it.state / 8 * 8 + STATE_IN_GRAPHEME },
       .ok (some (Grapheme.new (it.buffer.set 1 c) 1))) := by
  have hcur : it.state % 8 = 1 := by
    simpa [GraphemeIterator.curState, STATE_IN_GRAPHEME] using hst
  simp only [GraphemeIterator.process_char, GraphemeIterator.curState,
    GraphemeIterator.set_state, STATE_START, STATE_IN_ANSI, STATE_IN_GRAPHEME,
    MAX_GRAPHEME_SIZE]
  simp only [hca, hlen, hcur, hesc]
  norm_num
  rw [List.getElem?_set_eq_of_lt _ (by simp [hbuf, MAX_GRAPHEME_SIZE])]
  rfl

/-- A drained iterator (source exhausted, empty buffer) produces no
further items, whatever the fuel. -/
theorem collect_done (it : GraphemeIterator) (h1 : it.chars = [])
    (h2 : it.buffer_len = 0) : ∀ fuel, collectAux fuel it = [] := by
  intro fuel
  cases fuel with
  | zero => rfl
  | succ n =>
    simp only [collectAux, GraphemeIterator.next, h1, GraphemeIterator.nextAux, h2]
    simp

/-- Invariant of all reachable iterator states: in the Start and InAnsi
machine states the cluster buffer is empty. -/
theorem reach_buffer_inv (it : GraphemeIterator) (h : Reach it) :
    (it.curState = STATE_START ∨ it.curState = STATE_IN_ANSI) →
    it.buffer_len = 0 := by
  induction h with
  | init text ca => intro _; rfl
  | consume it c rest hr ih => exact ih
  | flush it hr ih => intro _; rfl
  | step it c hr ih =>
    simp only [GraphemeIterator.process_char]
    split_ifs
    all_goals intro hor
    all_goals
      first
      | exact ih hor
      | rfl
      | (exfalso
         simp only [GraphemeIterator.set_state, GraphemeIterator.curState,
           STATE_START, STATE_IN_GRAPHEME, STATE_IN_ANSI] at hor
         omega)
      | (refine ih (Or.inr ?_); assumption)
      | (show it.buffer_len = 0; omega)

/-- A step of next that consumes a character with no item produced leaves
the collected item stream unchanged. -/
theorem collect_skip_silent (f : Nat) (it itN : GraphemeIterator) (c : Char)
    (rest : List Char) (hch : it.chars = c :: rest)
    (hpc : ({ it with chars := rest }).process_char c = (itN, .ok none))
    (hchN : itN.chars = rest) :
    collectAux (f + 1) it = collectAux (f + 1) itN := by
  have h1 : it.next = itN.next := by
    simp only [GraphemeIterator.next, hch, hchN, GraphemeIterator.nextAux, hpc]
  simp only [collectAux, h1]

/-- Steady state of the ASCII fast cycle: from an InGrapheme state holding
exactly the character a, an ASCII ESC-free remainder yields one singleton
cluster per character, led by a. -/
theorem ascii_run (rest : List Char) :
    ∀ (it : GraphemeIterator) (a : Char) (fuel : Nat),
    (∀ c ∈ rest, is_ascii c = true ∧ c ≠ '\x1b') →
    it.chars = rest →
    it.curState = STATE_IN_GRAPHEME →
    it.buffer_len = 1 →
    it.buffer.take 1 = [a] →
    it.buffer.length = MAX_GRAPHEME_SIZE →
    rest.length + 1 ≤ fuel →
    (collectAux fuel it).map itemView =
      (a :: rest).map (fun c => Except.ok (some [c])) := by
  induction rest with
  | nil =>
    intro it a fuel _ hch hst hlen htake hbuf hfuel
    obtain ⟨f, rfl⟩ : ∃ f, fuel = f + 1 := ⟨fuel - 1, by omega⟩
    have hpos : 0 < it.buffer_len := by omega
    simp only [collectAux, GraphemeIterator.next, hch, GraphemeIterator.nextAux,
      hpos, if_true]
    simp only [collect_done]
    simp only [List.map_cons, List.map_nil, itemView, Except.map, hlen]
    rw [as_chars_new _ _ (by rw [hbuf]; simp [MAX_GRAPHEME_SIZE])]
    rw [htake]
  | cons c rest ih =>
    intro it a fuel hall hch hst hlen htake hbuf hfuel
    simp only [List.length_cons] at hfuel
    obtain ⟨f, rfl⟩ : ∃ f, fuel = f + 1 := ⟨fuel - 1, by omega⟩
    have hc := hall c (List.mem_cons_self c rest)
    have hpc := process_char_in_grapheme_ascii ({ it with chars := rest }) c hst
      hc.1 hc.2 hlen hbuf
    simp only [collectAux, GraphemeIterator.next, hch, GraphemeIterator.nextAux, hpc]
    simp only [List.map_cons]
    have hhead : itemView (.ok (Grapheme.new (it.buffer.set 1 c) 1)) =
        Except.ok (some [a]) := by
      simp only [itemView, Except.map]
      rw [as_chars_new _ _ (by simp [hbuf, MAX_GRAPHEME_SIZE])]
      rw [take_one_set_one, htake]
    rw [hhead]
    refine congrArg (List.cons _)
      (ih _ c f (fun d hd => hall d (List.mem_cons_of_mem _ hd)) rfl ?_ rfl ?_ ?_
        (by omega))
    · simp only [GraphemeIterator.curState, STATE_IN_GRAPHEME]
      omega
    · exact take_one_set_zero _ _ (by simp [hbuf, MAX_GRAPHEME_SIZE])
    · simp [hbuf]

/-- Claim C1: the spec states that two consecutive REGIONAL-category
characters never have a boundary between them, so a flag pair should
become one two-character cluster.  Evaluated on exactly the flag pair
[riA, riB], for both values of count_ansi, the iterator instead yields two
one-character clusters: the category of the first buffered character is
never recorded, so the pairing rule does not fire at stream start. -/
theorem regional_pair_at_stream_start_splits :
    (graphemes [riA, riB] true).map itemView =
      [Except.ok (some [riA]), Except.ok (some [riB])]
    ∧ (graphemes [riA, riB] false).map itemView =
      [Except.ok (some [riA]), Except.ok (some [riB])] := ⟨rfl, rfl⟩

/-- Claim C2: placing the very first character into the empty buffer emits
no item (first conjunct, which holds), but the engine does not record that
character as the previous category: after processing the REGIONAL
character riA, prev_category is still 0 although the category of riA is
REGIONAL, which is nonzero.  The recording branch of is_boundary is
unreachable from process_char for the first buffered character. -/
theorem first_char_category_not_recorded :
    ((GraphemeIterator.new [riA, riB] false).process_char riA).2 = Except.ok none
    ∧ ((GraphemeIterator.new [riA, riB] false).process_char riA).1.prev_category = 0
    ∧ Grapheme.char_category riA = boundary.REGIONAL
    ∧ boundary.REGIONAL ≠ 0 := ⟨rfl, rfl, rfl, by decide⟩

/-- Claim C3: the input "\x1b[31mred\x1b[0m" yields, with count_ansi =
true, exactly five Ok items: a synthetic one-character ESC cluster, r, e,
d, and another synthetic ESC cluster; with count_ansi = false it yields
exactly the three Ok items r, e, d. -/
theorem ansi_red_item_sequence :
    (graphemes ansiText true).map itemView =
      [Except.ok (some ['\x1b']), Except.ok (some ['r']), Except.ok (some ['e']),
       Except.ok (some ['d']), Except.ok (some ['\x1b'])]
    ∧ (graphemes ansiText false).map itemView =
      [Except.ok (some ['r']), Except.ok (some ['e']), Except.ok (some ['d'])] :=
  ⟨rfl, rfl⟩

/-- Claim C4: a non-ASCII character reached while the machine state is
InAnsi makes the iterator yield an InvalidAnsiSequence error whose offset
is the byte offset of that character and whose sequence_len is its UTF-8
length, and the cursor advances past the character (the remaining
characters become the new source), so later items come from what follows. -/
theorem invalid_ansi_error_and_resume (it : GraphemeIterator) (c : Char)
    (rest : List Char) (hs : it.curState = STATE_IN_ANSI)
    (hc : is_ascii c = false) :
    GraphemeIterator.nextAux (c :: rest) it =
      ({ it with chars := rest, position := it.position + utf8Len c },
       some (.error (GraphemeError.invalid_ansi it.position (utf8Len c)))) := by
  have h := process_char_inAnsi_nonascii ({ it with chars := rest }) c hs hc
  simp only [GraphemeIterator.nextAux, h]

/-- Witness for claim C4 at the state after the ESC of "\x1b" ++ [ch1234]
with count_ansi = true. -/
theorem invalid_ansi_error_and_resume_witness :
    GraphemeIterator.nextAux [ch1234] inAnsiState =
      ({ inAnsiState with chars := [],
                          position := inAnsiState.position + utf8Len ch1234 },
       some (.error (GraphemeError.invalid_ansi inAnsiState.position
         (utf8Len ch1234)))) :=
  invalid_ansi_error_and_resume inAnsiState ch1234 [] (by decide) (by decide)

/-- Claim C5: appending a ninth character to a full cluster of
MAX_GRAPHEME_SIZE buffered characters fails with BufferOverflow at the
byte offset of that character, and the iterator state is unchanged except
for the cursor: in particular the buffer contents and length are
untouched and the character is not appended. -/
theorem ninth_char_buffer_overflow (it : GraphemeIterator) (c : Char)
    (hb : it.buffer_len = MAX_GRAPHEME_SIZE)
    (hs : it.curState ≠ STATE_IN_ANSI) (hc : c ≠ '\x1b') :
    it.process_char c =
      ({ it with position := it.position + utf8Len c },
       .error (GraphemeError.buffer_overflow it.position (utf8Len c))) :=
  process_char_overflow it c hb hs hc

/-- Witness for claim C5 at the state reached after a base character and
seven combining accents, fed an eighth accent. -/
theorem ninth_char_buffer_overflow_witness :
    fullBufferState.process_char acute =
      ({ fullBufferState with
          position := fullBufferState.position + utf8Len acute },
       .error (GraphemeError.buffer_overflow fullBufferState.position
         (utf8Len acute))) :=
  ninth_char_buffer_overflow fullBufferState acute (by decide) (by decide)
    (by decide)

/-- Claim C6: a non-empty ASCII-only input with no ESC byte yields, for
either value of count_ansi, exactly one Ok cluster per input character,
each a singleton holding that character, in input order. -/
theorem ascii_only_one_cluster_per_char (l : List Char) (hne : l ≠ [])
    (hall : ∀ c ∈ l, is_ascii c = true ∧ c ≠ '\x1b') (ca : Bool) :
    (graphemes l ca).map itemView = l.map (fun c => Except.ok (some [c])) := by
  obtain ⟨c0, rest, rfl⟩ : ∃ c0 rest, l = c0 :: rest := by
    cases l with
    | nil => exact absurd rfl hne
    | cons x t => exact ⟨x, t, rfl⟩
  have h0 := hall c0 (List.mem_cons_self c0 rest)
  have hcur : (GraphemeIterator.new (c0 :: rest) ca).curState = STATE_START :=
    curState_new _ _
  have hpc := process_char_start_ascii
    ({ (GraphemeIterator.new (c0 :: rest) ca) with chars := rest }) c0 hcur
    h0.1 h0.2 rfl
  simp only [graphemes, List.length_cons]
  rw [collect_skip_silent (rest.length + 1) _ _ c0 rest rfl hpc rfl]
  refine ascii_run rest _ c0 _
    (fun d hd => hall d (List.mem_cons_of_mem _ hd)) rfl ?_ rfl ?_ ?_ (by omega)
  · simp only [GraphemeIterator.curState, STATE_IN_GRAPHEME]
    omega
  · exact take_one_set_zero _ _ (by simp [GraphemeIterator.new, MAX_GRAPHEME_SIZE])
  · simp [GraphemeIterator.new, MAX_GRAPHEME_SIZE]

/-- Witness for claim C6 on the input "ab". -/
theorem ascii_only_one_cluster_per_char_witness :
    (graphemes ['a', 'b'] false).map itemView =
      ['a', 'b'].map (fun c => Except.ok (some [c])) :=
  ascii_only_one_cluster_per_char ['a', 'b'] (by decide) (by decide) false

/-- Claim C7: with the source exhausted and 1 to MAX_GRAPHEME_SIZE
characters buffered, the next call emits exactly one final Ok cluster
holding the buffered characters in order, and after it every further call
produces nothing. -/
theorem end_of_input_flush (it : GraphemeIterator)
    (h0 : it.chars = []) (h1 : 1 ≤ it.buffer_len)
    (h2 : it.buffer_len ≤ MAX_GRAPHEME_SIZE)
    (h3 : it.buffer.length = MAX_GRAPHEME_SIZE) :
    it.next = ({ it with buffer_len := 0 },
               some (.ok (Grapheme.new it.buffer it.buffer_len)))
    ∧ (Grapheme.new it.buffer it.buffer_len).as_chars =
        some (it.buffer.take it.buffer_len)
    ∧ ∀ fuel, collectAux fuel ({ it with buffer_len := 0 }) = [] := by
  refine ⟨?_, ?_, ?_⟩
  · simp only [GraphemeIterator.next, h0, GraphemeIterator.nextAux]
    rw [if_pos (by omega)]
  · exact as_chars_new _ _ (by rw [h3]; exact h2)
  · exact collect_done _ h0 rfl

/-- Witness for claim C7 at the state after consuming "e" followed by a
combining acute accent. -/
theorem end_of_input_flush_witness :
    pendingFlushState.next =
      ({ pendingFlushState with buffer_len := 0 },
       some (.ok (Grapheme.new pendingFlushState.buffer
         pendingFlushState.buffer_len)))
    ∧ (Grapheme.new pendingFlushState.buffer
        pendingFlushState.buffer_len).as_chars =
        some (pendingFlushState.buffer.take pendingFlushState.buffer_len)
    ∧ ∀ fuel, collectAux fuel ({ pendingFlushState with buffer_len := 0 }) = [] :=
  end_of_input_flush pendingFlushState rfl (by decide) (by decide) (by decide)

/-- Claim C8: in every reachable iterator state whose machine state is
Start the buffer is empty, and consequently the ASCII fast path never
reports BufferOverflow and never emits a previously buffered character:
on any ASCII non-ESC character it returns Ok none. -/
theorem start_state_buffer_empty (it : GraphemeIterator) (h : Reach it)
    (hs : it.curState = STATE_START) :
    it.buffer_len = 0
    ∧ ∀ c, is_ascii c = true → c ≠ '\x1b' → (it.process_char c).2 = .ok none := by
  have hb := reach_buffer_inv it h (Or.inl hs)
  refine ⟨hb, ?_⟩
  intro c hca hcesc
  rw [process_char_start_ascii it c hs hca hcesc hb]

/-- Witness for claim C8 at the freshly constructed iterator fed the
character a. -/
theorem start_state_buffer_empty_witness :
    (GraphemeIterator.new [] false).buffer_len = 0
    ∧ ((GraphemeIterator.new [] false).process_char 'a').2 = .ok none := by
  have h := start_state_buffer_empty (GraphemeIterator.new [] false)
    (Reach.init [] false) (by decide)
  exact ⟨h.1, h.2 'a' (by decide) (by decide)⟩

/-- Claim C9: Grapheme.new validates nothing: it stores any length as
given; for a length above MAX_GRAPHEME_SIZE the resulting value makes
as_chars index out of bounds (the modelled panic, none), and for length 0
it produces an empty Grapheme on which is_empty holds.  The length
invariant of emitted clusters is maintained by the iterator alone. -/
theorem grapheme_new_unvalidated (chars : List Char) (len : Nat)
    (h8 : chars.length = MAX_GRAPHEME_SIZE) :
    (Grapheme.new chars len).len = len
    ∧ (MAX_GRAPHEME_SIZE < len → (Grapheme.new chars len).as_chars = none)
    ∧ (Grapheme.new chars 0).is_empty = true
    ∧ (Grapheme.new chars 0).as_chars = some [] := by
  refine ⟨rfl, ?_, rfl, ?_⟩
  · intro h
    simp only [MAX_GRAPHEME_SIZE] at h h8
    simp only [Grapheme.new, Grapheme.as_chars]
    rw [if_neg (by omega)]
  · simp [Grapheme.new, Grapheme.as_chars]

/-- Witness for claim C9 on an eight-slot array with the lengths 9 and 0. -/
theorem grapheme_new_unvalidated_witness :
    (Grapheme.new (List.replicate 8 'x') 9).len = 9
    ∧ (Grapheme.new (List.replicate 8 'x') 9).as_chars = none
    ∧ (Grapheme.new (List.replicate 8 'x') 0).is_empty = true := by
  have h := grapheme_new_unvalidated (List.replicate 8 'x') 9 (by decide)
  exact ⟨h.1, h.2.1 (by decide), h.2.2.1⟩

/-- Claim C10: when process_char reports InvalidAnsiSequence, the whole
iterator state is unchanged except that position advances by the encoded
length of the failing character: machine state stays InAnsi and the
buffer, its length, the count_ansi bit and prev_category are untouched. -/
theorem invalid_ansi_frame (it : GraphemeIterator) (c : Char)
    (hs : it.curState = STATE_IN_ANSI) (hc : is_ascii c = false) :
    it.process_char c =
      ({ it with position := it.position + utf8Len c },
       .error (GraphemeError.invalid_ansi it.position (utf8Len c))) :=
  process_char_inAnsi_nonascii it c hs hc

/-- Witness for claim C10 at a concrete InAnsi state fed ch1234. -/
theorem invalid_ansi_frame_witness :
    inAnsiState.process_char ch1234 =
      ({ inAnsiState with position := inAnsiState.position + utf8Len ch1234 },
       .error (GraphemeError.invalid_ansi inAnsiState.position
         (utf8Len ch1234))) :=
  invalid_ansi_frame inAnsiState ch1234 (by decide) (by decide)

end Graphmemes
